import Mathlib

/-!
Shallow embedding of the NetworkManager bridge lifecycle manager of
`virt-bridge-setup.py` (class `NMManager`), together with proofs about the
interface selector, the bridge add/delete/activate/deactivate operations,
the profile read-back path and the IPv4 address decoding.

The NetworkManager D-Bus service is modelled as explicit state: a list of
persisted connection profiles (`ListConnections` enumeration order, with
`AddConnection` appending), a list of devices, and a list of active
connections.  Side-effecting service calls are recorded in a trace.
-/

set_option maxHeartbeats 1000000
set_option maxRecDepth 100000

/-! ## Character-level helpers (decimal / hex rendering and parsing) -/

/-- Split a character list on a separator, like Python's `str.split(sep)`. -/
def splitCh (c : Char) : List Char → List (List Char)
  | [] => [[]]
  | a :: rest =>
    let r := splitCh c rest
    if a = c then [] :: r
    else
      match r with
      | [] => [[a]]
      | h :: t => (a :: h) :: t

/-- Join character lists with a separator, like Python's `sep.join(parts)`. -/
def joinCh (c : Char) : List (List Char) → List Char
  | [] => []
  | [p] => p
  | p :: rest => p ++ c :: joinCh c rest

/-- The character for a single decimal digit. -/
def decDigitChar (d : Nat) : Char := Char.ofNat (48 + d)

/-- The character for a single uppercase hexadecimal digit. -/
def hexDigitCharU (d : Nat) : Char :=
  if d < 10 then Char.ofNat (48 + d) else Char.ofNat (55 + d)

/-- Decimal rendering of an octet (faithful to Python's `str(n)` for `n < 1000`;
only used on values below 256). -/
def decOctet (n : Nat) : List Char :=
  if n < 10 then [decDigitChar n]
  else if n < 100 then [decDigitChar (n / 10), decDigitChar (n % 10)]
  else [decDigitChar (n / 100), decDigitChar (n / 10 % 10), decDigitChar (n % 10)]

/-- Two-digit uppercase hex rendering of a byte, Python's `f'{b:02X}'` for `b < 256`. -/
def hexByteChars (b : Nat) : List Char :=
  [hexDigitCharU (b / 16 % 16), hexDigitCharU (b % 16)]

/-- Value of one decimal digit character, `none` on a non-digit. -/
def parseDecDigit (c : Char) : Option Nat :=
  if '0' ≤ c ∧ c ≤ '9' then some (c.toNat - 48) else none

/-- Value of one hexadecimal digit character (either case), `none` otherwise. -/
def parseHexDigit (c : Char) : Option Nat :=
  if '0' ≤ c ∧ c ≤ '9' then some (c.toNat - 48)
  else if 'A' ≤ c ∧ c ≤ 'F' then some (c.toNat - 55)
  else if 'a' ≤ c ∧ c ≤ 'f' then some (c.toNat - 87)
  else none

/-- Parse a nonempty run of decimal digits, Python's `int(s)` (totalised to `Option`). -/
def parseDecChars (l : List Char) : Option Nat :=
  if l.isEmpty then none
  else l.foldl (fun acc c => acc.bind fun a => (parseDecDigit c).map fun d => a * 10 + d)
    (some 0)

/-- Parse a nonempty run of hex digits, Python's `int(s, 16)` (totalised to `Option`). -/
def parseHexChars (l : List Char) : Option Nat :=
  if l.isEmpty then none
  else l.foldl (fun acc c => acc.bind fun a => (parseHexDigit c).map fun d => a * 16 + d)
    (some 0)

/-- Parse every part with `f`, failing if any part fails. -/
def parseParts (f : List Char → Option Nat) : List (List Char) → Option (List Nat)
  | [] => some []
  | p :: rest =>
    match f p, parseParts f rest with
    | some v, some vs => some (v :: vs)
    | _, _ => none

/-- Colon-separated uppercase hex rendering of a byte sequence:
`':'.join(f'{b:02X}' for b in bs)`.  This is both the format in which
NetworkManager exposes a device's `HwAddress` property and the rendering
used by `find_existing_bridges` for a stored `mac-address` byte array. -/
def renderMac (bs : List Nat) : String :=
  ⟨joinCh ':' (bs.map hexByteChars)⟩

/-- `mac_address.split(':')` followed by `[int(x, 16) for x in ...]`,
totalised to `Option` (the Python code would raise on a malformed string). -/
def parseMacStr (s : String) : Option (List Nat) :=
  parseParts parseHexChars (splitCh ':' s.data)

/-- Python's `str.startswith`, on the character lists of the strings. -/
def pyStartswith (p s : String) : Bool := p.data.isPrefixOf s.data

/-- ASCII lower-casing of one character. -/
def lowerChar (c : Char) : Char :=
  if 'A' ≤ c ∧ c ≤ 'Z' then Char.ofNat (c.toNat + 32) else c

/-- Python's `str.lower` (ASCII; the option strings are `yes`/`no`). -/
def pyLower (s : String) : String := ⟨s.data.map lowerChar⟩

/-! ## Device model (Device Inventory) -/

/-- The live IPv4 configuration object of a device
(`org.freedesktop.NetworkManager.IP4Config` properties).  Addresses and
nameservers are 32-bit little-endian integers as delivered by the service. -/
structure Ip4Props where
  addresses : List (Nat × Nat) := []
  nameservers : List Nat := []
  gateway : String := ""
deriving DecidableEq, Repr

/-- A network device as read from the service.  `ip4Config = none` models the
sentinel object path `"/"` (no IPv4 configuration); the hardware address is
`none` when the device exposes no usable `HwAddress`. -/
structure Device where
  iface : String
  devType : Nat
  hwAddress : Option (List Nat) := none
  ip4Config : Option Ip4Props := none
deriving DecidableEq, Repr

/-- The `HwAddress` string a device exposes: NetworkManager renders the
hardware address as colon-separated uppercase hex, and an address-less
device yields the empty string. -/
def hwStr (d : Device) : String :=
  match d.hwAddress with
  | some bs => renderMac bs
  | none => ""

/-- Whether the device has an IPv4 config object with a nonempty `Addresses`
list (`ip4_config_path != "/"` and `GetAll(...).get('Addresses')` truthy). -/
def hasIp (d : Device) : Bool :=
  match d.ip4Config with
  | some pr => !pr.addresses.isEmpty
  | none => false

/-- The exclusion test of `select_default_slave_interface` (line 90):
`iface == 'lo' or dev_type == 5 or any(iface.startswith(p) for p in
['virbr', 'vnet', 'docker', 'p2p-dev-'])`. -/
def selExcluded (d : Device) : Bool :=
  d.iface == "lo" || d.devType == 5 ||
    (["virbr", "vnet", "docker", "p2p-dev-"].any fun p => pyStartswith p d.iface)

/-- One of the four interface buckets: surviving devices of the given type
(1 = Ethernet, 2 = Wi-Fi) with the given has-IP status, in device order. -/
def bucket (devs : List Device) (t : Nat) (withIp : Bool) : List String :=
  ((devs.filter fun d => !selExcluded d && d.devType == t && hasIp d == withIp).map
    fun d => d.iface)

/-- `NMManager.select_default_slave_interface`: the four categories
`eth_with_ip`, `wifi_with_ip`, `eth_without_ip`, `wifi_without_ip` are tried
in that order and the first nonempty one yields `sorted(lst)[0]`. -/
def select_default_slave_interface (devs : List Device) : Option String :=
  match List.insertionSort (· ≤ ·) (bucket devs 1 true) with
  | x :: _ => some x
  | [] =>
    match List.insertionSort (· ≤ ·) (bucket devs 2 true) with
    | x :: _ => some x
    | [] =>
      match List.insertionSort (· ≤ ·) (bucket devs 1 false) with
      | x :: _ => some x
      | [] =>
        match List.insertionSort (· ≤ ·) (bucket devs 2 false) with
        | x :: _ => some x
        | [] => none

/-- The exclusion test of `get_slave_candidates` (lines 130-134):
`dev_type not in [1, 2] or dev_type == 5 or any(iface.startswith(p) for p in
['lo', 'virbr', 'vnet', 'docker', 'p2p-dev-'])`. -/
def candExcluded (d : Device) : Bool :=
  !(d.devType == 1 || d.devType == 2) || d.devType == 5 ||
    (["lo", "virbr", "vnet", "docker", "p2p-dev-"].any fun p => pyStartswith p d.iface)

/-- `NMManager.get_slave_candidates`: collect surviving Ethernet/Wi-Fi interface
names and sort them ascending (`candidates.sort()`). -/
def get_slave_candidates (devs : List Device) : List String :=
  List.insertionSort (· ≤ ·) ((devs.filter fun d => !candExcluded d).map fun d => d.iface)

/-! ## Connection profile model (Connection Repository) -/

/-- A value stored in a settings dictionary (D-Bus variants as used by the
script: strings, UInt16 numbers, booleans, byte arrays). -/
inductive SettingVal where
  | str (s : String)
  | nat (n : Nat)
  | bool (b : Bool)
  | bytes (bs : List Nat)
deriving DecidableEq, Repr

/-- The `connection` section of a profile's settings. -/
structure ConnSection where
  id : String
  uuid : String
  type : String
  ifaceName : Option String := none
  master : Option String := none
  slaveType : Option String := none
deriving DecidableEq, Repr

/-- The `ipv4` section of a profile's settings. -/
structure Ipv4Section where
  method : Option String := none
  addresses : List (Nat × Nat) := []
  gateway : Option String := none
  dns : List Nat := []
deriving DecidableEq, Repr

/-- A persisted connection profile (the result of `GetSettings`).  The
`bridge` section is kept as a string-keyed association list because the exact
key spelling matters (`vlan_default_pvid` vs `vlan-default-pvid`). -/
structure ConnProfile where
  connection : ConnSection
  bridge : List (String × SettingVal) := []
  ipv4 : Ipv4Section := {}
deriving DecidableEq, Repr

/-- First value bound to a key in an association list (Python `dict.get`). -/
def lookupA {β : Type} (k : String) : List (String × β) → Option β
  | [] => none
  | (k', v) :: rest => if k' == k then some v else lookupA k rest

/-- Whether an association list binds a key. -/
def hasKeyA {β : Type} (k : String) (l : List (String × β)) : Bool :=
  l.any fun kv => kv.1 == k

/-- Python dict insertion: overwrite an existing binding in place, else append. -/
def upsertA {β : Type} (k : String) (v : β) : List (String × β) → List (String × β)
  | [] => [(k, v)]
  | (k', v') :: rest => if k' == k then (k', v) :: rest else (k', v') :: upsertA k v rest

/-- `slaves_by_master_uuid` update: append to the group of a key, creating the
group if absent. -/
def addToGroup {β : Type} (k : String) (v : β) :
    List (String × List β) → List (String × List β)
  | [] => [(k, [v])]
  | (k', vs) :: rest =>
    if k' == k then (k', vs ++ [v]) :: rest else (k', vs) :: addToGroup k v rest

/-- Python truthiness of an optional stored value, with a default for the
absent case (models `bridge_config.get(key, default)` used as a condition). -/
def svTruthy (dflt : Bool) : Option SettingVal → Bool
  | none => dflt
  | some (.str s) => s != ""
  | some (.nat n) => n != 0
  | some (.bool b) => b
  | some (.bytes bs) => !bs.isEmpty

/-- The match test of `find_connection`: `name_or_uuid in (id, uuid)`. -/
def connMatches (arg : String) (p : ConnProfile) : Bool :=
  arg == p.connection.id || arg == p.connection.uuid

/-- Remove the first element satisfying the predicate (the effect of
`Delete()` on the profile object returned by `find_connection`). -/
def deleteFirst {α : Type} (pred : α → Bool) : List α → List α
  | [] => []
  | a :: rest => if pred a then rest else a :: deleteFirst pred rest

/-- A side-effecting service call, as recorded in operation traces.
`listConnectionsRead` is the only non-mutating entry (a read made to show
the user the available connections). -/
inductive SCall where
  | addConnection (p : ConnProfile)
  | deleteConn (arg : String)
  | activateCall (arg : String)
  | deactivateCall (path : String)
  | listConnectionsRead
deriving DecidableEq, Repr

/-- Whether a recorded service call mutates service state. -/
def SCall.isMutating : SCall → Bool
  | .listConnectionsRead => false
  | _ => true

/-- `NMManager.find_connection`: first profile whose id or uuid equals the
argument, in enumeration order. -/
def find_connection (st : List ConnProfile) (arg : String) : Option ConnProfile :=
  st.find? (connMatches arg)

/-- `NMManager.delete_connection`.  Returns the new persisted state and the
trace of service calls: a found profile is deleted (unless dry-run), a missing
one is only logged, with a listing read when `show_list` is set. -/
def delete_connection (st : List ConnProfile) (arg : String)
    (showList : Bool) (dryRun : Bool) : List ConnProfile × List SCall :=
  match find_connection st arg with
  | some _ =>
    if dryRun then (st, [])
    else (deleteFirst (connMatches arg) st, [SCall.deleteConn arg])
  | none => (st, if showList then [SCall.listConnectionsRead] else [])

/-- `NMManager.activate_connection`: look the profile up, then either log
(dry-run), call `ActivateConnection`, or list the available connections. -/
def activate_connection (st : List ConnProfile) (arg : String)
    (dryRun : Bool) : List SCall :=
  match find_connection st arg with
  | none => [SCall.listConnectionsRead]
  | some _ => if dryRun then [] else [SCall.activateCall arg]

/-- A live active connection: its object path and the settings of the bound
profile (reachable through the `Connection` property). -/
structure ActiveConn where
  path : String
  profile : ConnProfile
deriving DecidableEq, Repr

/-- `NMManager.deactivate_connection`: scan the `ActiveConnections` list for
one whose profile's `id` equals the argument; deactivate it (unless dry-run),
or report not-active and list the available connections. -/
def deactivate_connection (actives : List ActiveConn) (_st : List ConnProfile)
    (arg : String) (dryRun : Bool) : List SCall :=
  match actives.find? (fun ac => ac.profile.connection.id == arg) with
  | some ac => if dryRun then [] else [SCall.deactivateCall ac.path]
  | none => [SCall.listConnectionsRead]

/-! ## add_bridge_connection -/

/-- The outcome of `add_bridge_connection`: range-validation `sys.exit(1)`,
a failed bridge `AddConnection` (abort), a failed slave `AddConnection`
(rollback), or normal completion. -/
inductive AddResult where
  | validationError
  | bridgeAddFailed
  | slaveAddFailed
  | success
deriving DecidableEq, Repr

/-- The bridge spec consumed by `add_bridge_connection` (the `config` dict).
`stp`, `multicast_snooping` and `vlan_filtering` are the `'yes'`/`'no'`
strings of the CLI; the numeric options are Python ints, possibly negative. -/
structure BridgeConfig where
  conn_name : String
  bridge_ifname : String
  slave_interface : String
  stp : String := "yes"
  stp_priority : Option Int := none
  clone_mac : Bool := true
  forward_delay : Option Int := none
  multicast_snooping : String := "yes"
  vlan_filtering : String := "no"
  vlan_default_pvid : Option Int := none
  dry_run : Bool := false
deriving DecidableEq, Repr

/-- The derived slave profile name `f"{bridge_conn_name}-port-{slave_iface}"`. -/
def slaveConnName (cfg : BridgeConfig) : String :=
  cfg.conn_name ++ "-port-" ++ cfg.slave_interface

/-- `NMManager._get_mac_address`: first device whose `Interface` matches and
whose `HwAddress` is truthy yields its address string. -/
def _get_mac_address (devs : List Device) (ifaceName : String) : Option String :=
  match devs.find? (fun d => d.iface == ifaceName && hwStr d != "") with
  | some d => some (hwStr d)
  | none => none

/-- Whether some numeric option of the spec is outside its checked range
(STP priority and forward delay in [0, 65535], default PVID in [0, 4094]). -/
def hasOutOfRange (cfg : BridgeConfig) : Bool :=
  (match cfg.stp_priority with
   | some p => decide (p < 0) || decide (65535 < p)
   | none => false) ||
  (match cfg.forward_delay with
   | some f => decide (f < 0) || decide (65535 < f)
   | none => false) ||
  (match cfg.vlan_default_pvid with
   | some v => decide (v < 0) || decide (4094 < v)
   | none => false)

/-- The `mac-address` entry of the new bridge section: present when clone-MAC
is requested and the slave's hardware address resolves (and parses). -/
def macPartOf (cfg : BridgeConfig) (devs : List Device) : List (String × SettingVal) :=
  if cfg.clone_mac then
    match _get_mac_address devs cfg.slave_interface with
    | some mac =>
      match parseMacStr mac with
      | some bs => [("mac-address", SettingVal.bytes bs)]
      | none => []
    | none => []
  else []

/-- The `stp` entry: set when the `stp` string is truthy (`if stp:`). -/
def stpPartOf (cfg : BridgeConfig) : List (String × SettingVal) :=
  if cfg.stp != "" then [("stp", SettingVal.bool (pyLower cfg.stp == "yes"))] else []

/-- The `priority` entry, when an STP priority was supplied. -/
def prioPartOf (cfg : BridgeConfig) : List (String × SettingVal) :=
  match cfg.stp_priority with
  | some p => [("priority", SettingVal.nat p.toNat)]
  | none => []

/-- The `multicast-snooping` entry, when the option string is truthy. -/
def msPartOf (cfg : BridgeConfig) : List (String × SettingVal) :=
  if cfg.multicast_snooping != "" then
    [("multicast-snooping", SettingVal.bool (pyLower cfg.multicast_snooping == "yes"))]
  else []

/-- The `forward-delay` entry, when a forward delay was supplied. -/
def fdPartOf (cfg : BridgeConfig) : List (String × SettingVal) :=
  match cfg.forward_delay with
  | some f => [("forward-delay", SettingVal.nat f.toNat)]
  | none => []

/-- The `vlan-filtering` entry, when the option string is truthy. -/
def vfPartOf (cfg : BridgeConfig) : List (String × SettingVal) :=
  if cfg.vlan_filtering != "" then
    [("vlan-filtering", SettingVal.bool (pyLower cfg.vlan_filtering == "yes"))]
  else []

/-- The default-PVID entry.  Note the key spelling: the source stores it
under `vlan_default_pvid` (underscores), line 327. -/
def pvidPartOf (cfg : BridgeConfig) : List (String × SettingVal) :=
  match cfg.vlan_default_pvid with
  | some v => [("vlan_default_pvid", SettingVal.nat v.toNat)]
  | none => []

/-- The `bridge` settings section of the new profile, in source order. -/
def bsecOf (cfg : BridgeConfig) (devs : List Device) : List (String × SettingVal) :=
  macPartOf cfg devs ++ stpPartOf cfg ++ prioPartOf cfg ++ msPartOf cfg ++
    fdPartOf cfg ++ vfPartOf cfg ++ pvidPartOf cfg

/-- Build the `bridge` settings section of the new profile.  An out-of-range
numeric option makes the process exit (`none`); the source interleaves the
three range checks with the assignments, but since each failed check exits
immediately the observable result is the same. -/
def buildBridgeSettings (cfg : BridgeConfig) (devs : List Device) :
    Option (List (String × SettingVal)) :=
  if hasOutOfRange cfg then none else some (bsecOf cfg devs)

/-- The bridge profile submitted by `add_bridge_connection`. -/
def bridgeProfileOf (cfg : BridgeConfig) (bsec : List (String × SettingVal))
    (bridgeUuid : String) : ConnProfile :=
  { connection :=
      { id := cfg.conn_name, uuid := bridgeUuid, type := "bridge",
        ifaceName := some cfg.bridge_ifname },
    bridge := bsec,
    ipv4 := { method := some "auto" } }

/-- The slave profile submitted by `add_bridge_connection`. -/
def slaveProfileOf (cfg : BridgeConfig) (slaveUuid bridgeUuid : String) : ConnProfile :=
  { connection :=
      { id := slaveConnName cfg, uuid := slaveUuid, type := "802-3-ethernet",
        ifaceName := some cfg.slave_interface, master := some bridgeUuid,
        slaveType := some "bridge" } }

/-- `NMManager.add_bridge_connection`.  The generated UUIDs are passed in
explicitly, and the two `AddConnection` submissions take failure-injection
flags modelling a `DBusException` from the service.  Steps, as in the source:
idempotent cleanup of both target names, settings construction with range
validation, bridge submission (abort on failure), slave submission (on
failure, delete both names again).  Returns the outcome, the new persisted
state and the trace of performed side-effecting calls. -/
def add_bridge_connection (st : List ConnProfile) (devs : List Device)
    (cfg : BridgeConfig) (bridgeUuid slaveUuid : String)
    (bridgeAddFails slaveAddFails : Bool) :
    AddResult × List ConnProfile × List SCall :=
  let c1 := delete_connection st cfg.conn_name false cfg.dry_run
  let c2 := delete_connection c1.1 (slaveConnName cfg) false cfg.dry_run
  match buildBridgeSettings cfg devs with
  | none => (AddResult.validationError, c2.1, c1.2 ++ c2.2)
  | some bsec =>
    if cfg.dry_run then (AddResult.success, c2.1, c1.2 ++ c2.2)
    else if bridgeAddFails then (AddResult.bridgeAddFailed, c2.1, c1.2 ++ c2.2)
    else if slaveAddFails then
      let st3 := c2.1 ++ [bridgeProfileOf cfg bsec bridgeUuid]
      let c4 := delete_connection st3 cfg.conn_name false cfg.dry_run
      let c5 := delete_connection c4.1 (slaveConnName cfg) false cfg.dry_run
      (AddResult.slaveAddFailed, c5.1,
        c1.2 ++ c2.2 ++ [SCall.addConnection (bridgeProfileOf cfg bsec bridgeUuid)] ++
          c4.2 ++ c5.2)
    else
      (AddResult.success,
        c2.1 ++ [bridgeProfileOf cfg bsec bridgeUuid, slaveProfileOf cfg slaveUuid bridgeUuid],
        c1.2 ++ c2.2 ++
          [SCall.addConnection (bridgeProfileOf cfg bsec bridgeUuid),
           SCall.addConnection (slaveProfileOf cfg slaveUuid bridgeUuid)])

/-! ## find_existing_bridges -/

/-- A bridge slave entry of the listing. -/
structure SlaveDetails where
  iface : String
  connId : String
deriving DecidableEq, Repr

/-- One entry of the `find_existing_bridges` result. -/
structure BridgeDetails where
  id : String
  uuid : String
  ifaceName : String
  slaves : List SlaveDetails
  ipv4Method : String
  ipv4Addresses : List String
  ipv4Gateway : Option String
  ipv4Dns : List String
  stp : String
  priority : Option SettingVal
  forwardDelay : Option SettingVal
  multicastSnooping : String
  macAddress : String
  vlanFiltering : String
  vlanDefaultPvid : Option SettingVal
deriving DecidableEq, Repr

/-- The `bridge_details` record built by `find_existing_bridges` for one
bridge-typed profile (before slaves are joined in). -/
def mkBridgeDetails (p : ConnProfile) : BridgeDetails :=
  { id := p.connection.id,
    uuid := p.connection.uuid,
    ifaceName := (p.connection.ifaceName).getD "N/A",
    slaves := [],
    ipv4Method := (p.ipv4.method).getD "disabled",
    ipv4Addresses := p.ipv4.addresses.map fun ad => toString ad.1 ++ "/" ++ toString ad.2,
    ipv4Gateway := p.ipv4.gateway,
    ipv4Dns := p.ipv4.dns.map toString,
    stp := if svTruthy true (lookupA "stp" p.bridge) then "Yes" else "No",
    priority := lookupA "priority" p.bridge,
    forwardDelay := lookupA "forward-delay" p.bridge,
    multicastSnooping :=
      if svTruthy true (lookupA "multicast-snooping" p.bridge) then "Yes" else "No",
    macAddress :=
      match lookupA "mac-address" p.bridge with
      | some (.bytes bs) => if !bs.isEmpty then renderMac bs else "Not set"
      | _ => "Not set",
    vlanFiltering :=
      if svTruthy false (lookupA "vlan-filtering" p.bridge) then "Yes" else "No",
    vlanDefaultPvid := lookupA "vlan-default-pvid" p.bridge }

/-- One step of the single classification pass of `find_existing_bridges`:
a bridge-typed profile (with nonempty uuid) is inserted into `bridges_by_uuid`,
a bridge-slave profile (with truthy master) is appended to its master's group. -/
def febStep (acc : List (String × BridgeDetails) × List (String × List SlaveDetails))
    (p : ConnProfile) :
    List (String × BridgeDetails) × List (String × List SlaveDetails) :=
  if p.connection.type == "bridge" then
    if p.connection.uuid == "" then acc
    else (upsertA p.connection.uuid (mkBridgeDetails p) acc.1, acc.2)
  else if p.connection.slaveType == some "bridge" then
    match p.connection.master with
    | some m =>
      if m == "" then acc
      else
        (acc.1,
          addToGroup m
            { iface := (p.connection.ifaceName).getD "Unknown", connId := p.connection.id }
            acc.2)
    | none => acc
  else acc

/-- `NMManager.find_existing_bridges`: classify all profiles in one pass,
then attach each bridge's slave group. -/
def find_existing_bridges (st : List ConnProfile) : List BridgeDetails :=
  let acc := st.foldl febStep ([], [])
  acc.1.map fun kv =>
    match lookupA kv.1 acc.2 with
    | some sl => { kv.2 with slaves := sl }
    | none => kv.2

/-! ## _get_active_network_config and the IPv4 decoding -/

/-- The four bytes of `struct.pack('<L', n)` (little-endian), which
`inet_ntoa` then renders in order as the four dotted-quad octets. -/
def ipv4Octets (n : Nat) : List Nat :=
  [n % 256, n / 256 % 256, n / 65536 % 256, n / 16777216 % 256]

/-- `socket.inet_ntoa(struct.pack('<L', n))` as a character list. -/
def ipChars (n : Nat) : List Char :=
  joinCh '.' ((ipv4Octets n).map decOctet)

/-- `socket.inet_ntoa(struct.pack('<L', n))` as a string. -/
def ipStr (n : Nat) : String := ⟨ipChars n⟩

/-- The live-state record returned by `_get_active_network_config`. -/
structure NetConfig where
  addresses : List String
  gateway : String
  dns : List String
deriving DecidableEq, Repr

/-- `NMManager._get_active_network_config`: resolve the device by interface
name (a missing device raises, caught as `none`), bail out on the `"/"`
IPv4-config sentinel, and decode addresses and nameservers from their 32-bit
little-endian integer representation into dotted quads. -/
def _get_active_network_config (devs : List Device) (interfaceName : String) :
    Option NetConfig :=
  if interfaceName == "" then none
  else
    match devs.find? (fun d => d.iface == interfaceName) with
    | none => none
    | some d =>
      match d.ip4Config with
      | none => none
      | some props =>
        some
          { addresses := props.addresses.map fun ad => ipStr ad.1 ++ "/" ++ toString ad.2,
            gateway := props.gateway,
            dns := props.nameservers.map ipStr }

/-- Modelled from the spec: the network service's own encoding of a
dotted-quad string as a 32-bit little-endian integer — the encoding with
which, per the spec, the decoding of `_get_active_network_config` must
round-trip.  It is not part of the repository's source (it lives in
NetworkManager), so it is defined here from the spec's words: parse the four
decimal octets and assemble them little-endian. -/
def encodeDottedQuad (l : List Char) : Option Nat :=
  match parseParts parseDecChars (splitCh '.' l) with
  | some [a, b, c, d] =>
    if a < 256 ∧ b < 256 ∧ c < 256 ∧ d < 256 then
      some (a + 256 * b + 65536 * c + 16777216 * d)
    else none
  | _ => none

/-! ## Concrete fixtures used by counterexamples and witnesses -/

/-- Whether some persisted profile carries the given UUID. -/
def uuidPresent (st : List ConnProfile) (u : String) : Bool :=
  st.any fun p => p.connection.uuid == u

/-- Scenario device: an Ethernet interface without a live IPv4 address. -/
def ethNoIp : Device := { iface := "eth0", devType := 1 }

/-- Scenario device: a Wi-Fi interface with a live IPv4 address. -/
def wlanIp : Device :=
  { iface := "wlan0", devType := 2, ip4Config := some { addresses := [(16951488, 24)] } }

/-- The claim scenario device set `{eth0: Ethernet,no-IP}, {wlan0: Wi-Fi,has-IP}`. -/
def scenarioDevs : List Device := [ethNoIp, wlanIp]

/-- An Ethernet device whose name merely starts with `lo`. -/
def localEth : Device := { iface := "local0", devType := 1 }

/-- A pre-existing profile named `br0`. -/
def dupA : ConnProfile := { connection := { id := "br0", uuid := "u1", type := "bridge" } }

/-- A second pre-existing profile also named `br0`. -/
def dupB : ConnProfile := { connection := { id := "br0", uuid := "u2", type := "bridge" } }

/-- A bridge spec targeting the name `br0` over slave `eth0` (no MAC cloning). -/
def cexAddCfg : BridgeConfig :=
  { conn_name := "br0", bridge_ifname := "br0", slave_interface := "eth0",
    clone_mac := false }

/-- A pre-existing profile named `c-mybr0` (the default bridge profile name). -/
def preBr : ConnProfile :=
  { connection := { id := "c-mybr0", uuid := "u-pre", type := "bridge" } }

/-- A bridge spec with an out-of-range STP priority. -/
def cexValCfg : BridgeConfig :=
  { conn_name := "c-mybr0", bridge_ifname := "mybr0", slave_interface := "eth0",
    clone_mac := false, stp_priority := some 70000 }

/-- A bridge profile, bound to an active connection below. -/
def acBridgeProfile : ConnProfile :=
  { connection :=
      { id := "br0", uuid := "3c0b6a70-1111-2222-3333-444455556666", type := "bridge" } }

/-- An active connection whose bound profile is `acBridgeProfile`. -/
def acEntry : ActiveConn :=
  { path := "/org/freedesktop/NetworkManager/ActiveConnection/7",
    profile := acBridgeProfile }

/-- A device with a resolvable hardware address, for round-trip witnesses. -/
def devEth : Device :=
  { iface := "eth0", devType := 1, hwAddress := some [0, 17, 34, 51, 68, 85] }

/-- A valid bridge spec with MAC cloning and a default PVID. -/
def cfgW : BridgeConfig :=
  { conn_name := "c-mybr0", bridge_ifname := "mybr0", slave_interface := "eth0",
    vlan_default_pvid := some 42 }

/-! ## Lemmas: splitting and joining -/

theorem splitCh_not_mem (c : Char) (p : List Char) (h : c ∉ p) : splitCh c p = [p] := by
  induction p with
  | nil => rfl
  | cons a t ih =>
    have ha : ¬a = c := by
      intro e
      exact h (by simp [e])
    have ht : c ∉ t := fun m => h (List.mem_cons_of_mem _ m)
    simp [splitCh, ha, ih ht]

theorem splitCh_sep (c : Char) (p m : List Char) (h : c ∉ p) :
    splitCh c (p ++ c :: m) = p :: splitCh c m := by
  induction p with
  | nil => simp [splitCh]
  | cons a t ih =>
    have ha : ¬a = c := by
      intro e
      exact h (by simp [e])
    have ht : c ∉ t := fun hm => h (List.mem_cons_of_mem _ hm)
    simp [splitCh, ha, ih ht]

theorem splitCh_joinCh (c : Char) (parts : List (List Char)) (hne : parts ≠ [])
    (hall : ∀ p ∈ parts, c ∉ p) : splitCh c (joinCh c parts) = parts := by
  induction parts with
  | nil => exact absurd rfl hne
  | cons p rest ih =>
    cases rest with
    | nil => simpa [joinCh] using splitCh_not_mem c p (hall p (by simp))
    | cons q rest' =>
      have hj : joinCh c (p :: q :: rest') = p ++ c :: joinCh c (q :: rest') := rfl
      rw [hj, splitCh_sep c p _ (hall p (by simp)),
        ih (by simp) fun x hx => hall x (by simp [hx])]

theorem decOctet_spec :
    ∀ n < 256, parseDecChars (decOctet n) = some n ∧ '.' ∉ decOctet n ∧ decOctet n ≠ [] := by
  decide

theorem hexByteChars_spec :
    ∀ b < 256,
      parseHexChars (hexByteChars b) = some b ∧ ':' ∉ hexByteChars b ∧ hexByteChars b ≠ [] := by
  decide

theorem parseParts_map {f : List Char → Option Nat} {g : Nat → List Char}
    (xs : List Nat) (h : ∀ x ∈ xs, f (g x) = some x) :
    parseParts f (xs.map g) = some xs := by
  induction xs with
  | nil => rfl
  | cons x t ih =>
    simp [parseParts, h x (by simp), ih fun y hy => h y (by simp [hy])]

theorem parseMacStr_renderMac (bs : List Nat) (h1 : bs ≠ []) (h2 : ∀ b ∈ bs, b < 256) :
    parseMacStr (renderMac bs) = some bs := by
  unfold parseMacStr renderMac
  have hdata : (⟨joinCh ':' (bs.map hexByteChars)⟩ : String).data =
      joinCh ':' (bs.map hexByteChars) := rfl
  rw [hdata, splitCh_joinCh ':' (bs.map hexByteChars) (by simpa using h1) ?hm]
  · exact parseParts_map bs fun b hb => (hexByteChars_spec b (h2 b hb)).1
  case hm =>
    intro p hp
    obtain ⟨b, hb, rfl⟩ := List.mem_map.mp hp
    exact (hexByteChars_spec b (h2 b hb)).2.1

theorem ipv4_octet_lt (n : Nat) : ∀ x ∈ ipv4Octets n, x < 256 := by
  intro x hx
  simp [ipv4Octets] at hx
  rcases hx with rfl | rfl | rfl | rfl <;> exact Nat.mod_lt _ (by norm_num)

theorem encode_ipChars (n : Nat) (h : n < 2 ^ 32) : encodeDottedQuad (ipChars n) = some n := by
  unfold encodeDottedQuad ipChars
  rw [splitCh_joinCh '.' ((ipv4Octets n).map decOctet) (by simp [ipv4Octets]) ?hm]
  · rw [parseParts_map (ipv4Octets n) fun x hx => (decOctet_spec x (ipv4_octet_lt n x hx)).1]
    have h0 : n % 256 < 256 := Nat.mod_lt _ (by norm_num)
    have h1 : n / 256 % 256 < 256 := Nat.mod_lt _ (by norm_num)
    have h2 : n / 65536 % 256 < 256 := Nat.mod_lt _ (by norm_num)
    have h3 : n / 16777216 % 256 < 256 := Nat.mod_lt _ (by norm_num)
    simp only [ipv4Octets]
    rw [if_pos ⟨h0, h1, h2, h3⟩]
    congr 1
    omega
  case hm =>
    intro p hp
    obtain ⟨x, hx, rfl⟩ := List.mem_map.mp hp
    exact (decOctet_spec x (ipv4_octet_lt n x hx)).2.1

/-- C10: `_get_active_network_config` decodes every IPv4 address and
nameserver from its 32-bit little-endian integer representation into
dotted-quad notation exactly: for every 32-bit unsigned integer, re-encoding
the produced dotted-quad string with the service's own encoding yields the
original integer, and every DNS entry the function returns is such a decoded
string. -/
theorem c10_ipv4_decode_roundtrip (n : Nat) (hn : n < 2 ^ 32) :
    encodeDottedQuad (ipChars n) = some n ∧
    (∀ devs name out, _get_active_network_config devs name = some out →
      (∀ s ∈ out.dns, ∃ m, s = ipStr m ∧
        (m < 2 ^ 32 → encodeDottedQuad s.data = some m)) ∧
      (∀ s ∈ out.addresses, ∃ (m : Nat) (pfx : Nat), s = ipStr m ++ "/" ++ toString pfx ∧
        (m < 2 ^ 32 → encodeDottedQuad (ipChars m) = some m))) := by
  refine ⟨encode_ipChars n hn, ?_⟩
  intro devs name out hout
  unfold _get_active_network_config at hout
  split at hout
  · exact absurd hout (by simp)
  · split at hout
    · exact absurd hout (by simp)
    · split at hout
      · exact absurd hout (by simp)
      · rename_i props heq
        cases hout
        constructor
        · intro s hs
          simp only at hs
          obtain ⟨m, _, rfl⟩ := List.mem_map.mp hs
          exact ⟨m, rfl, fun hm => encode_ipChars m hm⟩
        · intro s hs
          simp only at hs
          obtain ⟨ad, _, rfl⟩ := List.mem_map.mp hs
          exact ⟨ad.1, ad.2, rfl, fun hm => encode_ipChars ad.1 hm⟩

theorem c10_witness :
    encodeDottedQuad (ipChars 3232235777) = some 3232235777 :=
  (c10_ipv4_decode_roundtrip 3232235777 (by norm_num)).1

/-! ## Lemmas: the interface selector -/

/-- `r` is the lexicographic minimum of the string list `l`. -/
def IsLeastOf (l : List String) (r : String) : Prop :=
  r ∈ l ∧ ∀ x ∈ l, r ≤ x

theorem insertionSort_head_least (l : List String) (x : String) (xs : List String)
    (h : List.insertionSort (· ≤ ·) l = x :: xs) : IsLeastOf l x := by
  have hs : (List.insertionSort (· ≤ ·) l).Sorted (· ≤ ·) :=
    List.sorted_insertionSort _ l
  have hp : (List.insertionSort (· ≤ ·) l).Perm l := List.perm_insertionSort _ l
  rw [h] at hs hp
  constructor
  · exact hp.subset (List.mem_cons_self x xs)
  · intro y hy
    rcases List.mem_cons.mp (hp.symm.subset hy) with rfl | hmem
    · exact le_refl y
    · exact (List.sorted_cons.mp hs).1 y hmem

theorem insertionSort_nil_iff (l : List String) :
    List.insertionSort (· ≤ ·) l = [] ↔ l = [] := by
  constructor
  · intro h
    have hp : (List.insertionSort (· ≤ ·) l).Perm l := List.perm_insertionSort _ l
    rw [h] at hp
    exact hp.symm.eq_nil
  · intro h
    rw [h]
    rfl

theorem sort_eq_of_perm {l l' : List String} (h : l.Perm l') :
    List.insertionSort (· ≤ ·) l = List.insertionSort (· ≤ ·) l' :=
  List.eq_of_perm_of_sorted
    ((List.perm_insertionSort _ l).trans (h.trans (List.perm_insertionSort _ l').symm))
    (List.sorted_insertionSort _ l) (List.sorted_insertionSort _ l')

theorem bucket_perm {devs devs' : List Device} (h : devs.Perm devs') (t : Nat) (wip : Bool) :
    (bucket devs t wip).Perm (bucket devs' t wip) :=
  (h.filter _).map _

/-- `r` is the least member of the first nonempty bucket, in priority order. -/
def FirstBucketLeast (devs : List Device) (r : String) : Prop :=
  (bucket devs 1 true ≠ [] ∧ IsLeastOf (bucket devs 1 true) r) ∨
  (bucket devs 1 true = [] ∧ bucket devs 2 true ≠ [] ∧ IsLeastOf (bucket devs 2 true) r) ∨
  (bucket devs 1 true = [] ∧ bucket devs 2 true = [] ∧ bucket devs 1 false ≠ [] ∧
    IsLeastOf (bucket devs 1 false) r) ∨
  (bucket devs 1 true = [] ∧ bucket devs 2 true = [] ∧ bucket devs 1 false = [] ∧
    bucket devs 2 false ≠ [] ∧ IsLeastOf (bucket devs 2 false) r)

theorem select_spec (devs : List Device) (r : String)
    (h : select_default_slave_interface devs = some r) : FirstBucketLeast devs r := by
  unfold select_default_slave_interface at h
  cases h1 : List.insertionSort (· ≤ ·) (bucket devs 1 true) with
  | cons x xs =>
    rw [h1] at h
    cases h
    exact Or.inl ⟨fun hnil => by simp [hnil] at h1, insertionSort_head_least _ _ _ h1⟩
  | nil =>
    rw [h1] at h
    have e1 : bucket devs 1 true = [] := (insertionSort_nil_iff _).mp h1
    cases h2 : List.insertionSort (· ≤ ·) (bucket devs 2 true) with
    | cons x xs =>
      rw [h2] at h
      cases h
      exact Or.inr (Or.inl ⟨e1, fun hnil => by simp [hnil] at h2,
        insertionSort_head_least _ _ _ h2⟩)
    | nil =>
      rw [h2] at h
      have e2 : bucket devs 2 true = [] := (insertionSort_nil_iff _).mp h2
      cases h3 : List.insertionSort (· ≤ ·) (bucket devs 1 false) with
      | cons x xs =>
        rw [h3] at h
        cases h
        exact Or.inr (Or.inr (Or.inl ⟨e1, e2, fun hnil => by simp [hnil] at h3,
          insertionSort_head_least _ _ _ h3⟩))
      | nil =>
        rw [h3] at h
        have e3 : bucket devs 1 false = [] := (insertionSort_nil_iff _).mp h3
        cases h4 : List.insertionSort (· ≤ ·) (bucket devs 2 false) with
        | cons x xs =>
          rw [h4] at h
          cases h
          exact Or.inr (Or.inr (Or.inr ⟨e1, e2, e3, fun hnil => by simp [hnil] at h4,
            insertionSort_head_least _ _ _ h4⟩))
        | nil =>
          rw [h4] at h
          cases h

theorem select_eq_of_perm {devs devs' : List Device} (h : devs.Perm devs') :
    select_default_slave_interface devs = select_default_slave_interface devs' := by
  unfold select_default_slave_interface
  rw [sort_eq_of_perm (bucket_perm h 1 true), sort_eq_of_perm (bucket_perm h 2 true),
    sort_eq_of_perm (bucket_perm h 1 false), sort_eq_of_perm (bucket_perm h 2 false)]

/-- C3: the selector discards excluded devices, partitions the rest into the
four priority buckets, and returns the lexicographically smallest name of the
first nonempty bucket; it is invariant under permutation of the device list
(deterministic in the device set), returns `none` when all buckets are empty,
and on the scenario set `{eth0: Ethernet,no-IP}, {wlan0: Wi-Fi,has-IP}` it
returns `wlan0`. -/
theorem c3_selector (devs devs' : List Device) (hperm : devs.Perm devs') :
    select_default_slave_interface devs = select_default_slave_interface devs' ∧
    (bucket devs 1 true = [] ∧ bucket devs 2 true = [] ∧ bucket devs 1 false = [] ∧
        bucket devs 2 false = [] →
      select_default_slave_interface devs = none) ∧
    (∀ r, select_default_slave_interface devs = some r → FirstBucketLeast devs r) ∧
    select_default_slave_interface scenarioDevs = some "wlan0" := by
  refine ⟨select_eq_of_perm hperm, ?_, fun r hr => select_spec devs r hr, ?_⟩
  · rintro ⟨e1, e2, e3, e4⟩
    unfold select_default_slave_interface
    rw [e1, e2, e3, e4]
    rfl
  · have b1 : bucket scenarioDevs 1 true = [] := by decide
    have b2 : bucket scenarioDevs 2 true = ["wlan0"] := by decide
    unfold select_default_slave_interface
    rw [b1, b2]
    rfl

theorem c3_witness : select_default_slave_interface scenarioDevs = some "wlan0" :=
  (c3_selector scenarioDevs scenarioDevs (List.Perm.refl _)).2.2.2

/-! ## C9: slave candidates vs selector exclusion -/

theorem c9_counterexample :
    get_slave_candidates [localEth] = [] ∧
    select_default_slave_interface [localEth] = some "local0" := by
  decide

/-- C9 (amended): `get_slave_candidates` returns the surviving interface
names sorted ascending, and within the Ethernet/Wi-Fi types its exclusion
rule equals the selector's exclusion rule extended by the prefix test
`startswith('lo')` — the candidate list excludes every interface the selector
excludes, but additionally every interface whose name merely begins with
`lo`, while the selector only discards the exact name `lo`. -/
theorem c9_candidates (devs : List Device) (d : Device) :
    (get_slave_candidates devs).Sorted (· ≤ ·) ∧
    (d.devType = 1 ∨ d.devType = 2 →
      (candExcluded d = true ↔
        (selExcluded d = true ∨ pyStartswith "lo" d.iface = true))) := by
  refine ⟨List.sorted_insertionSort _ _, fun ht => ?_⟩
  have h5 : (d.devType == 5) = false := by
    rcases ht with h1 | h1 <;> simp [h1]
  have h12 : (d.devType == 1 || d.devType == 2) = true := by
    rcases ht with h1 | h1 <;> simp [h1]
  have hlo : d.iface = "lo" → pyStartswith "lo" d.iface = true := fun e => by
    rw [e]
    decide
  simp only [candExcluded, selExcluded, h5, h12, Bool.not_true, Bool.false_or,
    Bool.or_false, List.any_cons, List.any_nil, Bool.or_eq_true, beq_iff_eq]
  tauto

theorem c9_witness :
    (get_slave_candidates [localEth]).Sorted (· ≤ ·) ∧
    (candExcluded localEth = true ↔
      (selExcluded localEth = true ∨ pyStartswith "lo" localEth.iface = true)) :=
  ⟨(c9_candidates [localEth] localEth).1,
    (c9_candidates [localEth] localEth).2 (Or.inl rfl)⟩

/-! ## C7: delete of a missing profile -/

/-- C7: `delete_connection` on a name or UUID matching no persisted profile
is a no-op: the state is unchanged, no `Delete` call is made, and when the
show-list flag is set the available connections are listed. -/
theorem c7_delete_missing_noop (st : List ConnProfile) (arg : String)
    (showList dryRun : Bool) (h : find_connection st arg = none) :
    delete_connection st arg showList dryRun =
      (st, if showList then [SCall.listConnectionsRead] else []) := by
  unfold delete_connection
  rw [h]

theorem c7_witness :
    delete_connection [] "no-such-connection" true false =
      ([], [SCall.listConnectionsRead]) := by
  simpa using c7_delete_missing_noop [] "no-such-connection" true false rfl

/-! ## Lemmas: delete_connection -/

theorem deleteFirst_sublist {α : Type} (pred : α → Bool) (l : List α) :
    (deleteFirst pred l).Sublist l := by
  induction l with
  | nil => exact List.Sublist.refl _
  | cons a t ih =>
    by_cases h : pred a
    · simp only [deleteFirst]
      rw [if_pos h]
      exact List.sublist_cons_self a t
    · simp only [deleteFirst]
      rw [if_neg h]
      exact ih.cons₂ a

theorem countP_deleteFirst_add_one {α : Type} (pred : α → Bool) (l : List α)
    (h : l.any pred = true) : (deleteFirst pred l).countP pred + 1 = l.countP pred := by
  induction l with
  | nil => simp at h
  | cons a t ih =>
    by_cases hp : pred a
    · simp only [deleteFirst]
      rw [if_pos hp, List.countP_cons_of_pos _ _ hp]
    · have ht : t.any pred = true := by
        simpa [List.any_cons, hp] using h
      simp only [deleteFirst]
      rw [if_neg hp, List.countP_cons_of_neg _ _ hp, List.countP_cons_of_neg _ _ hp]
      exact ih ht

theorem delete_state_sublist (st : List ConnProfile) (arg : String) (sl dr : Bool) :
    (delete_connection st arg sl dr).1.Sublist st := by
  unfold delete_connection
  split
  · split
    · exact List.Sublist.refl st
    · exact deleteFirst_sublist _ st
  · exact List.Sublist.refl st

theorem delete_countP_le (st : List ConnProfile) (arg : String) (sl dr : Bool)
    (q : ConnProfile → Bool) :
    ((delete_connection st arg sl dr).1).countP q ≤ st.countP q :=
  (delete_state_sublist st arg sl dr).countP_le q

theorem delete_countP_self_zero (st : List ConnProfile) (arg : String) (sl : Bool)
    (h : st.countP (connMatches arg) ≤ 1) :
    ((delete_connection st arg sl false).1).countP (connMatches arg) = 0 := by
  unfold delete_connection
  split
  · rename_i p hf
    unfold find_connection at hf
    rw [if_neg (by simp)]
    have hany : st.any (connMatches arg) = true :=
      List.any_eq_true.mpr ⟨p, List.mem_of_find?_eq_some hf, List.find?_some hf⟩
    have := countP_deleteFirst_add_one (connMatches arg) st hany
    show List.countP (connMatches arg) (deleteFirst (connMatches arg) st) = 0
    omega
  · rename_i hf
    unfold find_connection at hf
    exact List.countP_eq_zero.mpr (List.find?_eq_none.mp hf)

theorem deleteFirst_append_clean {α : Type} (pred : α → Bool) (l m : List α)
    (h : ∀ a ∈ l, ¬pred a = true) :
    deleteFirst pred (l ++ m) = l ++ deleteFirst pred m := by
  induction l with
  | nil => rfl
  | cons a t ih =>
    have ha : ¬pred a = true := h a (by simp)
    simp only [List.cons_append, deleteFirst, List.append_eq]
    rw [if_neg ha, ih fun x hx => h x (by simp [hx])]

theorem find?_append_none {α : Type} (p : α → Bool) (l₁ l₂ : List α)
    (h : l₁.find? p = none) : (l₁ ++ l₂).find? p = l₂.find? p := by
  induction l₁ with
  | nil => rfl
  | cons a t ih =>
    cases hpa : p a with
    | true =>
      rw [List.find?_cons_of_pos _ hpa] at h
      cases h
    | false =>
      rw [List.find?_cons_of_neg _ (by simp [hpa])] at h
      rw [List.cons_append, List.find?_cons_of_neg _ (by simp [hpa])]
      exact ih h

theorem delete_append_hit (st : List ConnProfile) (b : ConnProfile) (arg : String)
    (hclean : ∀ a ∈ st, ¬connMatches arg a = true) (hb : connMatches arg b = true) :
    delete_connection (st ++ [b]) arg false false = (st, [SCall.deleteConn arg]) := by
  have h1 : deleteFirst (connMatches arg) (st ++ [b]) = st := by
    rw [deleteFirst_append_clean _ _ _ hclean]
    simp only [deleteFirst]
    rw [if_pos hb, List.append_nil]
  unfold delete_connection find_connection
  rw [find?_append_none _ _ _ (List.find?_eq_none.mpr hclean),
    List.find?_cons_of_pos _ hb]
  simp [h1]

theorem delete_clean_noop (st : List ConnProfile) (arg : String) (dr : Bool)
    (hclean : ∀ a ∈ st, ¬connMatches arg a = true) :
    delete_connection st arg false dr = (st, []) := by
  unfold delete_connection find_connection
  rw [List.find?_eq_none.mpr hclean]
  rfl

theorem delete_trace_no_add (st : List ConnProfile) (arg : String) (sl dr : Bool)
    (p : ConnProfile) : SCall.addConnection p ∉ (delete_connection st arg sl dr).2 := by
  unfold delete_connection
  split
  · split <;> simp
  · split <;> simp

theorem delete_dry_noshow (st : List ConnProfile) (arg : String) :
    delete_connection st arg false true = (st, []) := by
  unfold delete_connection
  split
  · rfl
  · rfl

/-! ## C4: dry-run -/

theorem add_dry_eval (st : List ConnProfile) (devs : List Device) (cfg : BridgeConfig)
    (bu su : String) (f1 f2 : Bool) (hd : cfg.dry_run = true) :
    add_bridge_connection st devs cfg bu su f1 f2 =
      ((if hasOutOfRange cfg then AddResult.validationError else AddResult.success),
        st, []) := by
  by_cases hor : hasOutOfRange cfg <;>
    simp [add_bridge_connection, buildBridgeSettings, hd, hor, delete_dry_noshow]

/-- C4: with the dry-run flag set, no side-effecting service call is made by
`add_bridge_connection`, `delete_connection`, `activate_connection` or
`deactivate_connection`; the persisted state is untouched, the same
validation and lookup path is executed (an out-of-range spec still fails
validation, a valid one completes), and the operations return as on
success. -/
theorem c4_dry_run_suppresses_mutation (st : List ConnProfile) (devs : List Device)
    (cfg : BridgeConfig) (bu su : String) (f1 f2 : Bool) (arg : String) (sl : Bool)
    (actives : List ActiveConn) :
    (∀ c ∈ (add_bridge_connection st devs { cfg with dry_run := true } bu su f1 f2).2.2,
        c.isMutating = false) ∧
    (add_bridge_connection st devs { cfg with dry_run := true } bu su f1 f2).2.1 = st ∧
    ((add_bridge_connection st devs { cfg with dry_run := true } bu su f1 f2).1 =
        AddResult.validationError ↔ hasOutOfRange cfg = true) ∧
    (hasOutOfRange cfg = false →
      (add_bridge_connection st devs { cfg with dry_run := true } bu su f1 f2).1 =
        AddResult.success) ∧
    (delete_connection st arg sl true).1 = st ∧
    (∀ c ∈ (delete_connection st arg sl true).2, c.isMutating = false) ∧
    (∀ c ∈ activate_connection st arg true, c.isMutating = false) ∧
    (∀ c ∈ deactivate_connection actives st arg true, c.isMutating = false) := by
  have hor : hasOutOfRange { cfg with dry_run := true } = hasOutOfRange cfg := rfl
  rw [add_dry_eval st devs _ bu su f1 f2 rfl]
  refine ⟨?_, rfl, ?_, ?_, ?_, ?_, ?_, ?_⟩
  · intro c hc
    simp at hc
  · rw [hor]
    by_cases h : hasOutOfRange cfg <;> simp [h]
  · intro h
    rw [hor] at *
    simp [h]
  · unfold delete_connection
    split
    · rfl
    · rfl
  · unfold delete_connection
    split
    · simp
    · split <;> simp [SCall.isMutating]
  · unfold activate_connection
    split
    · simp [SCall.isMutating]
    · simp
  · unfold deactivate_connection
    split
    · simp
    · simp [SCall.isMutating]

theorem c4_witness :
    (add_bridge_connection [] [] { cexAddCfg with dry_run := true } "w1" "w2" false
        false).2.1 = [] ∧
    (add_bridge_connection [] [] { cexAddCfg with dry_run := true } "w1" "w2" false
        false).1 = AddResult.success :=
  ⟨(c4_dry_run_suppresses_mutation [] [] cexAddCfg "w1" "w2" false false "x" false
      []).2.1,
    (c4_dry_run_suppresses_mutation [] [] cexAddCfg "w1" "w2" false false "x" false
      []).2.2.2.1 (by decide)⟩

/-! ## Lemmas: the four outcomes of add_bridge_connection -/

theorem uuidPresent_eq_false (l : List ConnProfile) (u : String)
    (h : ∀ p ∈ l, p.connection.uuid ≠ u) : uuidPresent l u = false := by
  unfold uuidPresent
  rw [List.any_eq_false]
  intro p hp
  simp [h p hp]

theorem add_run_validation (st : List ConnProfile) (devs : List Device)
    (cfg : BridgeConfig) (bu su : String) (f1 f2 : Bool)
    (hor : hasOutOfRange cfg = true) :
    (add_bridge_connection st devs cfg bu su f1 f2).1 = AddResult.validationError ∧
    (add_bridge_connection st devs cfg bu su f1 f2).2.1 =
      (delete_connection (delete_connection st cfg.conn_name false cfg.dry_run).1
        (slaveConnName cfg) false cfg.dry_run).1 := by
  refine ⟨?_, ?_⟩ <;> simp [add_bridge_connection, buildBridgeSettings, hor]

theorem add_run_bridgefail (st : List ConnProfile) (devs : List Device)
    (cfg : BridgeConfig) (bu su : String) (f2 : Bool)
    (hd : cfg.dry_run = false) (hor : hasOutOfRange cfg = false) :
    (add_bridge_connection st devs cfg bu su true f2).1 = AddResult.bridgeAddFailed ∧
    (add_bridge_connection st devs cfg bu su true f2).2.1 =
      (delete_connection (delete_connection st cfg.conn_name false false).1
        (slaveConnName cfg) false false).1 := by
  refine ⟨?_, ?_⟩ <;> simp [add_bridge_connection, buildBridgeSettings, hd, hor]

theorem add_run_slavefail (st : List ConnProfile) (devs : List Device)
    (cfg : BridgeConfig) (bu su : String)
    (hd : cfg.dry_run = false) (hor : hasOutOfRange cfg = false) :
    (add_bridge_connection st devs cfg bu su false true).1 = AddResult.slaveAddFailed ∧
    (add_bridge_connection st devs cfg bu su false true).2.1 =
      (delete_connection
        (delete_connection
          ((delete_connection (delete_connection st cfg.conn_name false false).1
              (slaveConnName cfg) false false).1 ++
            [bridgeProfileOf cfg (bsecOf cfg devs) bu])
          cfg.conn_name false false).1
        (slaveConnName cfg) false false).1 := by
  refine ⟨?_, ?_⟩ <;> simp [add_bridge_connection, buildBridgeSettings, hd, hor]

theorem add_run_success (st : List ConnProfile) (devs : List Device)
    (cfg : BridgeConfig) (bu su : String)
    (hd : cfg.dry_run = false) (hor : hasOutOfRange cfg = false) :
    (add_bridge_connection st devs cfg bu su false false).1 = AddResult.success ∧
    (add_bridge_connection st devs cfg bu su false false).2.1 =
      (delete_connection (delete_connection st cfg.conn_name false false).1
          (slaveConnName cfg) false false).1 ++
        [bridgeProfileOf cfg (bsecOf cfg devs) bu, slaveProfileOf cfg su bu] := by
  refine ⟨?_, ?_⟩ <;> simp [add_bridge_connection, buildBridgeSettings, hd, hor]

/-! ## C1: atomicity of add_bridge_connection -/

theorem c1_counterexample :
    uuidPresent (add_bridge_connection [dupA, dupB] [] cexAddCfg
      "37a1c2d4-0000-4000-8000-00000000e5f6"
      "48b2d3e5-0000-4000-8000-0000000ff607" false true).2.1
      "37a1c2d4-0000-4000-8000-00000000e5f6" = true ∧
    uuidPresent (add_bridge_connection [dupA, dupB] [] cexAddCfg
      "37a1c2d4-0000-4000-8000-00000000e5f6"
      "48b2d3e5-0000-4000-8000-0000000ff607" false true).2.1
      "48b2d3e5-0000-4000-8000-0000000ff607" = false := by
  decide

/-- C1 (amended): provided at most one pre-existing profile matches the
bridge connection name, at most one matches the derived slave profile name,
and the freshly generated UUIDs occur nowhere in the pre-existing store,
`add_bridge_connection` leaves the persisted state with either both the new
bridge profile and its slave profile present or neither present — the slave
failure path rolls both back, and a bridge-submission failure aborts with no
slave created.  (Without the at-most-one hypotheses the rollback `delete`
can remove a different same-named profile and leave the new bridge profile
behind, as the counterexample shows.) -/
theorem c1_add_bridge_atomic (st : List ConnProfile) (devs : List Device)
    (cfg : BridgeConfig) (bu su : String) (f1 f2 : Bool)
    (hc : st.countP (connMatches cfg.conn_name) ≤ 1)
    (hs : st.countP (connMatches (slaveConnName cfg)) ≤ 1)
    (hfb : ∀ p ∈ st, p.connection.uuid ≠ bu)
    (hfs : ∀ p ∈ st, p.connection.uuid ≠ su) :
    (uuidPresent (add_bridge_connection st devs cfg bu su f1 f2).2.1 bu =
      uuidPresent (add_bridge_connection st devs cfg bu su f1 f2).2.1 su) ∧
    (cfg.dry_run = false → hasOutOfRange cfg = false → f1 = true →
      (add_bridge_connection st devs cfg bu su f1 f2).1 = AddResult.bridgeAddFailed ∧
      uuidPresent (add_bridge_connection st devs cfg bu su f1 f2).2.1 su = false) := by
  by_cases hdr : cfg.dry_run
  · rw [add_dry_eval st devs cfg bu su f1 f2 hdr]
    refine ⟨?_, ?_⟩
    · show uuidPresent st bu = uuidPresent st su
      rw [uuidPresent_eq_false st bu hfb, uuidPresent_eq_false st su hfs]
    · intro h
      rw [h] at hdr
      cases hdr
  · have hdr' : cfg.dry_run = false := by simpa using hdr
    have hz1 : ((delete_connection st cfg.conn_name false false).1).countP
        (connMatches cfg.conn_name) = 0 :=
      delete_countP_self_zero st cfg.conn_name false hc
    have hs1 : ((delete_connection st cfg.conn_name false false).1).countP
        (connMatches (slaveConnName cfg)) ≤ 1 :=
      le_trans (delete_countP_le st cfg.conn_name false false _) hs
    have hz2c : ((delete_connection (delete_connection st cfg.conn_name false false).1
        (slaveConnName cfg) false false).1).countP (connMatches cfg.conn_name) = 0 :=
      Nat.le_zero.mp (le_trans
        (delete_countP_le (delete_connection st cfg.conn_name false false).1
          (slaveConnName cfg) false false _) (le_of_eq hz1))
    have hz2s : ((delete_connection (delete_connection st cfg.conn_name false false).1
        (slaveConnName cfg) false false).1).countP (connMatches (slaveConnName cfg)) = 0 :=
      delete_countP_self_zero (delete_connection st cfg.conn_name false false).1
        (slaveConnName cfg) false hs1
    have hc2 : ∀ a ∈ (delete_connection (delete_connection st cfg.conn_name false false).1
        (slaveConnName cfg) false false).1, ¬connMatches cfg.conn_name a = true :=
      List.countP_eq_zero.mp hz2c
    have hs2 : ∀ a ∈ (delete_connection (delete_connection st cfg.conn_name false false).1
        (slaveConnName cfg) false false).1, ¬connMatches (slaveConnName cfg) a = true :=
      List.countP_eq_zero.mp hz2s
    have hsub : ((delete_connection (delete_connection st cfg.conn_name false false).1
        (slaveConnName cfg) false false).1).Sublist st :=
      (delete_state_sublist (delete_connection st cfg.conn_name false false).1
        (slaveConnName cfg) false false).trans
        (delete_state_sublist st cfg.conn_name false false)
    have hfb2 : ∀ p ∈ (delete_connection (delete_connection st cfg.conn_name false false).1
        (slaveConnName cfg) false false).1, p.connection.uuid ≠ bu :=
      fun p hp => hfb p (hsub.subset hp)
    have hfs2 : ∀ p ∈ (delete_connection (delete_connection st cfg.conn_name false false).1
        (slaveConnName cfg) false false).1, p.connection.uuid ≠ su :=
      fun p hp => hfs p (hsub.subset hp)
    by_cases hor : hasOutOfRange cfg
    · obtain ⟨h₁, h₂⟩ := add_run_validation st devs cfg bu su f1 f2 hor
      rw [hdr'] at h₂
      rw [h₂, uuidPresent_eq_false _ bu hfb2, uuidPresent_eq_false _ su hfs2]
      exact ⟨rfl, fun _ h => absurd hor (by simp [h])⟩
    · have hor' : hasOutOfRange cfg = false := by simpa using hor
      cases f1 with
      | true =>
        obtain ⟨h₁, h₂⟩ := add_run_bridgefail st devs cfg bu su f2 hdr' hor'
        rw [h₂, uuidPresent_eq_false _ bu hfb2, uuidPresent_eq_false _ su hfs2]
        exact ⟨rfl, fun _ _ _ => ⟨h₁, rfl⟩⟩
      | false =>
        cases f2 with
        | true =>
          obtain ⟨h₁, h₂⟩ := add_run_slavefail st devs cfg bu su hdr' hor'
          have hbp : connMatches cfg.conn_name (bridgeProfileOf cfg (bsecOf cfg devs) bu)
              = true := by
            simp [connMatches, bridgeProfileOf]
          have hrb : (delete_connection
              (delete_connection
                ((delete_connection (delete_connection st cfg.conn_name false false).1
                    (slaveConnName cfg) false false).1 ++
                  [bridgeProfileOf cfg (bsecOf cfg devs) bu])
                cfg.conn_name false false).1
              (slaveConnName cfg) false false).1 =
              (delete_connection (delete_connection st cfg.conn_name false false).1
                (slaveConnName cfg) false false).1 := by
            rw [delete_append_hit _ _ _ hc2 hbp]
            simp [delete_clean_noop _ _ _ hs2]
          rw [h₂, hrb, uuidPresent_eq_false _ bu hfb2, uuidPresent_eq_false _ su hfs2]
          exact ⟨rfl, fun _ _ h => by cases h⟩
        | false =>
          obtain ⟨h₁, h₂⟩ := add_run_success st devs cfg bu su hdr' hor'
          have e1 : uuidPresent ((delete_connection
              (delete_connection st cfg.conn_name false false).1
              (slaveConnName cfg) false false).1 ++
              [bridgeProfileOf cfg (bsecOf cfg devs) bu, slaveProfileOf cfg su bu]) bu
              = true := by
            unfold uuidPresent
            rw [List.any_append]
            simp [bridgeProfileOf]
          have e2 : uuidPresent ((delete_connection
              (delete_connection st cfg.conn_name false false).1
              (slaveConnName cfg) false false).1 ++
              [bridgeProfileOf cfg (bsecOf cfg devs) bu, slaveProfileOf cfg su bu]) su
              = true := by
            unfold uuidPresent
            rw [List.any_append]
            simp [slaveProfileOf]
          rw [h₂, e1, e2]
          exact ⟨rfl, fun _ _ h => by cases h⟩

theorem c1_witness :
    uuidPresent (add_bridge_connection [] [] cexAddCfg "w3" "w4" false true).2.1 "w3" =
      uuidPresent (add_bridge_connection [] [] cexAddCfg "w3" "w4" false true).2.1 "w4" :=
  (c1_add_bridge_atomic [] [] cexAddCfg "w3" "w4" false true (by decide) (by decide)
    (by simp) (by simp)).1

/-! ## C2: validation and the cleanup deletes -/

theorem c2_counterexample :
    add_bridge_connection [preBr] [] cexValCfg "66ce0000-0000-4000-8000-00000000aaaa"
        "66ce0000-0000-4000-8000-00000000bbbb" false false =
      (AddResult.validationError, [], [SCall.deleteConn "c-mybr0"]) := by
  decide

/-- C2 (amended): a bridge spec with an out-of-range numeric setting makes
`add_bridge_connection` fail with a validation error before any profile is
submitted — no `AddConnection` call occurs and the final state is a sublist
of the pre-state (nothing new is persisted).  However, the validation does
not run before every mutation: the idempotent-cleanup deletes of the target
bridge and slave profile names are executed first, so a pre-existing profile
with one of those names is already deleted when the validation error is
raised (the counterexample exhibits this). -/
theorem c2_validation_before_submission (st : List ConnProfile) (devs : List Device)
    (cfg : BridgeConfig) (bu su : String) (f1 f2 : Bool)
    (hor : hasOutOfRange cfg = true) :
    (add_bridge_connection st devs cfg bu su f1 f2).1 = AddResult.validationError ∧
    (∀ p : ConnProfile,
      SCall.addConnection p ∉ (add_bridge_connection st devs cfg bu su f1 f2).2.2) ∧
    (add_bridge_connection st devs cfg bu su f1 f2).2.1.Sublist st := by
  refine ⟨(add_run_validation st devs cfg bu su f1 f2 hor).1, ?_, ?_⟩
  · intro p hp
    have htr : (add_bridge_connection st devs cfg bu su f1 f2).2.2 =
        (delete_connection st cfg.conn_name false cfg.dry_run).2 ++
          (delete_connection (delete_connection st cfg.conn_name false cfg.dry_run).1
            (slaveConnName cfg) false cfg.dry_run).2 := by
      simp [add_bridge_connection, buildBridgeSettings, hor]
    rw [htr] at hp
    rcases List.mem_append.mp hp with h | h
    · exact delete_trace_no_add _ _ _ _ p h
    · exact delete_trace_no_add _ _ _ _ p h
  · rw [(add_run_validation st devs cfg bu su f1 f2 hor).2]
    exact (delete_state_sublist _ _ _ _).trans (delete_state_sublist _ _ _ _)

theorem c2_witness :
    (add_bridge_connection [preBr] [] cexValCfg "66ce0000-0000-4000-8000-00000000cccc"
        "66ce0000-0000-4000-8000-00000000dddd" false false).1 =
      AddResult.validationError ∧
    (add_bridge_connection [preBr] [] cexValCfg "66ce0000-0000-4000-8000-00000000cccc"
        "66ce0000-0000-4000-8000-00000000dddd" false false).2.1.Sublist [preBr] :=
  ⟨(c2_validation_before_submission [preBr] [] cexValCfg
      "66ce0000-0000-4000-8000-00000000cccc" "66ce0000-0000-4000-8000-00000000dddd"
      false false (by decide)).1,
    (c2_validation_before_submission [preBr] [] cexValCfg
      "66ce0000-0000-4000-8000-00000000cccc" "66ce0000-0000-4000-8000-00000000dddd"
      false false (by decide)).2.2⟩

/-! ## Lemmas: find_existing_bridges on a freshly added bridge -/

theorem hasKeyA_upsert_ne {β : Type} (u k : String) (v : β) (l : List (String × β))
    (hne : k ≠ u) (h : hasKeyA u l = false) : hasKeyA u (upsertA k v l) = false := by
  induction l with
  | nil =>
    simp only [upsertA, hasKeyA, List.any_cons, List.any_nil]
    simp [hne]
  | cons e t ih =>
    simp only [hasKeyA, List.any_cons, Bool.or_eq_false_iff] at h
    simp only [upsertA]
    by_cases hc : (e.1 == k) = true
    · rw [if_pos hc]
      simp only [hasKeyA, List.any_cons, Bool.or_eq_false_iff]
      exact ⟨h.1, h.2⟩
    · rw [if_neg hc]
      simp only [hasKeyA, List.any_cons, Bool.or_eq_false_iff]
      exact ⟨h.1, ih h.2⟩

theorem upsertA_of_nokey {β : Type} (k : String) (v : β) (l : List (String × β))
    (h : hasKeyA k l = false) : upsertA k v l = l ++ [(k, v)] := by
  induction l with
  | nil => rfl
  | cons e t ih =>
    simp only [hasKeyA, List.any_cons, Bool.or_eq_false_iff] at h
    simp only [upsertA]
    rw [if_neg (by simp [h.1]), ih h.2]
    rfl

theorem febStep_fst_nokey (u : String)
    (acc : List (String × BridgeDetails) × List (String × List SlaveDetails))
    (p : ConnProfile) (hp : p.connection.uuid ≠ u) (h : hasKeyA u acc.1 = false) :
    hasKeyA u (febStep acc p).1 = false := by
  unfold febStep
  split
  · split
    · exact h
    · exact hasKeyA_upsert_ne u p.connection.uuid (mkBridgeDetails p) acc.1 hp h
  · split
    · split
      · split
        · exact h
        · exact h
      · exact h
    · exact h

theorem foldl_feb_nokey (u : String) (l : List ConnProfile)
    (acc : List (String × BridgeDetails) × List (String × List SlaveDetails))
    (hl : ∀ p ∈ l, p.connection.uuid ≠ u) (h : hasKeyA u acc.1 = false) :
    hasKeyA u (l.foldl febStep acc).1 = false := by
  induction l generalizing acc with
  | nil => exact h
  | cons p t ih =>
    rw [List.foldl_cons]
    exact ih (febStep acc p) (fun q hq => hl q (by simp [hq]))
      (febStep_fst_nokey u acc p (hl p (by simp)) h)

theorem febStep_fst_nonbridge
    (acc : List (String × BridgeDetails) × List (String × List SlaveDetails))
    (p : ConnProfile) (hp : (p.connection.type == "bridge") = false) :
    (febStep acc p).1 = acc.1 := by
  unfold febStep
  rw [hp, if_neg (by simp)]
  split
  · split
    · split
      · rfl
      · rfl
    · rfl
  · rfl

theorem mem_join_values (l : List (String × BridgeDetails))
    (S : List (String × List SlaveDetails)) (u : String) (d : BridgeDetails)
    (h : (u, d) ∈ l) :
    ∃ sl, { d with slaves := sl } ∈
      l.map fun kv =>
        match lookupA kv.1 S with
        | some sl => { kv.2 with slaves := sl }
        | none => kv.2 := by
  have hm : (match lookupA u S with
      | some sl => { d with slaves := sl }
      | none => d) ∈
      l.map fun kv =>
        match lookupA kv.1 S with
        | some sl => { kv.2 with slaves := sl }
        | none => kv.2 :=
    List.mem_map_of_mem _ h
  rcases hl : lookupA u S with _ | s
  · rw [hl] at hm
    exact ⟨d.slaves, hm⟩
  · rw [hl] at hm
    exact ⟨s, hm⟩

theorem febStep_bridge_eval
    (acc : List (String × BridgeDetails) × List (String × List SlaveDetails))
    (bp : ConnProfile) (hbt : (bp.connection.type == "bridge") = true)
    (hbu : (bp.connection.uuid == "") = false)
    (hk : hasKeyA bp.connection.uuid acc.1 = false) :
    febStep acc bp = (acc.1 ++ [(bp.connection.uuid, mkBridgeDetails bp)], acc.2) := by
  unfold febStep
  rw [hbt, hbu, if_pos rfl, if_neg (by simp)]
  rw [upsertA_of_nokey _ _ _ hk]

theorem feb_new_bridge (front : List ConnProfile) (bp sp : ConnProfile)
    (hbt : (bp.connection.type == "bridge") = true)
    (hbu : (bp.connection.uuid == "") = false)
    (hfr : ∀ p ∈ front, p.connection.uuid ≠ bp.connection.uuid)
    (hst : (sp.connection.type == "bridge") = false) :
    ∃ sl, { mkBridgeDetails bp with slaves := sl } ∈
      find_existing_bridges (front ++ [bp, sp]) := by
  simp only [find_existing_bridges]
  rw [List.foldl_append, List.foldl_cons, List.foldl_cons, List.foldl_nil]
  have hk : hasKeyA bp.connection.uuid (front.foldl febStep ([], [])).1 = false :=
    foldl_feb_nokey _ front _ hfr rfl
  rw [febStep_bridge_eval _ bp hbt hbu hk]
  have h2 : (febStep ((front.foldl febStep ([], [])).1 ++
      [(bp.connection.uuid, mkBridgeDetails bp)],
      (front.foldl febStep ([], [])).2) sp).1 =
      (front.foldl febStep ([], [])).1 ++ [(bp.connection.uuid, mkBridgeDetails bp)] :=
    febStep_fst_nonbridge _ sp hst
  rw [h2]
  exact mem_join_values _ _ bp.connection.uuid (mkBridgeDetails bp) (by simp)

/-! ## Lemmas: keys of the built bridge section -/

theorem lookupA_eq_none_of_keys {β : Type} (l : List (String × β)) (k₀ k : String)
    (hl : ∀ e ∈ l, e.1 = k₀) (h : k ≠ k₀) : lookupA k l = none := by
  induction l with
  | nil => rfl
  | cons e t ih =>
    have hf : (e.1 == k) = false := by
      rw [hl e (by simp)]
      exact beq_eq_false_iff_ne.mpr (Ne.symm h)
    cases e with
    | mk k' v =>
      simp only [lookupA]
      simp only at hf
      rw [hf]
      simpa using ih fun x hx => hl x (by simp [hx])

theorem lookupA_append_none {β : Type} (k : String) (l₁ l₂ : List (String × β))
    (h : lookupA k l₁ = none) : lookupA k (l₁ ++ l₂) = lookupA k l₂ := by
  induction l₁ with
  | nil => rfl
  | cons e t ih =>
    cases e with
    | mk k' v =>
      simp only [lookupA, List.cons_append] at *
      by_cases hc : (k' == k) = true
      · rw [if_pos hc] at h
        cases h
      · rw [if_neg hc] at h ⊢
        exact ih h

theorem lookupA_append_none₂ {β : Type} (k : String) (l₁ l₂ : List (String × β))
    (h₁ : lookupA k l₁ = none) (h₂ : lookupA k l₂ = none) :
    lookupA k (l₁ ++ l₂) = none := by
  rw [lookupA_append_none _ _ _ h₁]
  exact h₂

theorem macPartOf_keys (cfg : BridgeConfig) (devs : List Device) :
    ∀ e ∈ macPartOf cfg devs, e.1 = "mac-address" := by
  intro e he
  unfold macPartOf at he
  repeat' split at he
  all_goals simp_all

theorem stpPartOf_keys (cfg : BridgeConfig) : ∀ e ∈ stpPartOf cfg, e.1 = "stp" := by
  intro e he
  unfold stpPartOf at he
  repeat' split at he
  all_goals simp_all

theorem prioPartOf_keys (cfg : BridgeConfig) : ∀ e ∈ prioPartOf cfg, e.1 = "priority" := by
  intro e he
  unfold prioPartOf at he
  repeat' split at he
  all_goals simp_all

theorem msPartOf_keys (cfg : BridgeConfig) :
    ∀ e ∈ msPartOf cfg, e.1 = "multicast-snooping" := by
  intro e he
  unfold msPartOf at he
  repeat' split at he
  all_goals simp_all

theorem fdPartOf_keys (cfg : BridgeConfig) :
    ∀ e ∈ fdPartOf cfg, e.1 = "forward-delay" := by
  intro e he
  unfold fdPartOf at he
  repeat' split at he
  all_goals simp_all

theorem vfPartOf_keys (cfg : BridgeConfig) :
    ∀ e ∈ vfPartOf cfg, e.1 = "vlan-filtering" := by
  intro e he
  unfold vfPartOf at he
  repeat' split at he
  all_goals simp_all

theorem pvidPartOf_keys (cfg : BridgeConfig) :
    ∀ e ∈ pvidPartOf cfg, e.1 = "vlan_default_pvid" := by
  intro e he
  unfold pvidPartOf at he
  repeat' split at he
  all_goals simp_all

theorem bsec_front_none (cfg : BridgeConfig) (devs : List Device) (k : String)
    (h1 : k ≠ "mac-address") (h2 : k ≠ "stp") (h3 : k ≠ "priority")
    (h4 : k ≠ "multicast-snooping") (h5 : k ≠ "forward-delay")
    (h6 : k ≠ "vlan-filtering") :
    lookupA k (macPartOf cfg devs ++ stpPartOf cfg ++ prioPartOf cfg ++ msPartOf cfg ++
      fdPartOf cfg ++ vfPartOf cfg) = none :=
  lookupA_append_none₂ _ _ _
    (lookupA_append_none₂ _ _ _
      (lookupA_append_none₂ _ _ _
        (lookupA_append_none₂ _ _ _
          (lookupA_append_none₂ _ _ _
            (lookupA_eq_none_of_keys _ _ _ (macPartOf_keys cfg devs) h1)
            (lookupA_eq_none_of_keys _ _ _ (stpPartOf_keys cfg) h2))
          (lookupA_eq_none_of_keys _ _ _ (prioPartOf_keys cfg) h3))
        (lookupA_eq_none_of_keys _ _ _ (msPartOf_keys cfg) h4))
      (lookupA_eq_none_of_keys _ _ _ (fdPartOf_keys cfg) h5))
    (lookupA_eq_none_of_keys _ _ _ (vfPartOf_keys cfg) h6)

theorem bsec_pvid_lookup (cfg : BridgeConfig) (devs : List Device) (v : Int)
    (hv : cfg.vlan_default_pvid = some v) :
    lookupA "vlan_default_pvid" (bsecOf cfg devs) = some (SettingVal.nat v.toNat) := by
  unfold bsecOf
  rw [lookupA_append_none _ _ _
    (bsec_front_none cfg devs _ (by decide) (by decide) (by decide) (by decide)
      (by decide) (by decide))]
  unfold pvidPartOf
  rw [hv]
  simp [lookupA]

theorem bsec_hyphen_pvid_lookup (cfg : BridgeConfig) (devs : List Device) :
    lookupA "vlan-default-pvid" (bsecOf cfg devs) = none := by
  unfold bsecOf
  exact lookupA_append_none₂ _ _ _
    (bsec_front_none cfg devs _ (by decide) (by decide) (by decide) (by decide)
      (by decide) (by decide))
    (lookupA_eq_none_of_keys _ _ _ (pvidPartOf_keys cfg) (by decide))

/-! ## C5: the vlan_default_pvid / vlan-default-pvid key mismatch -/

/-- C5: `add_bridge_connection` stores a supplied default VLAN id under the
settings key `vlan_default_pvid` (underscores), while `find_existing_bridges`
reads the key `vlan-default-pvid` (hyphens); hence a bridge created with a
default VLAN id in range reads back with its `vlan-default-pvid` absent. -/
theorem c5_pvid_key_mismatch (st : List ConnProfile) (devs : List Device)
    (cfg : BridgeConfig) (bu su : String) (v : Int)
    (hv : cfg.vlan_default_pvid = some v)
    (hor : hasOutOfRange cfg = false) (hd : cfg.dry_run = false)
    (hfb : ∀ p ∈ st, p.connection.uuid ≠ bu) (hbu : bu ≠ "") :
    (∃ p ∈ (add_bridge_connection st devs cfg bu su false false).2.1,
      p.connection.uuid = bu ∧
      lookupA "vlan_default_pvid" p.bridge = some (SettingVal.nat v.toNat)) ∧
    (∃ bd ∈ find_existing_bridges
        (add_bridge_connection st devs cfg bu su false false).2.1,
      bd.uuid = bu ∧ bd.vlanDefaultPvid = none) := by
  obtain ⟨h₁, h₂⟩ := add_run_success st devs cfg bu su hd hor
  rw [h₂]
  have hsub : ((delete_connection (delete_connection st cfg.conn_name false false).1
      (slaveConnName cfg) false false).1).Sublist st :=
    (delete_state_sublist _ _ false false).trans (delete_state_sublist st _ false false)
  obtain ⟨sl, hmem⟩ := feb_new_bridge
    (delete_connection (delete_connection st cfg.conn_name false false).1
      (slaveConnName cfg) false false).1
    (bridgeProfileOf cfg (bsecOf cfg devs) bu) (slaveProfileOf cfg su bu) rfl
    (beq_eq_false_iff_ne.mpr hbu) (fun p hp => hfb p (hsub.subset hp)) rfl
  constructor
  · exact ⟨bridgeProfileOf cfg (bsecOf cfg devs) bu, by simp, rfl,
      bsec_pvid_lookup cfg devs v hv⟩
  · exact ⟨_, hmem, rfl, bsec_hyphen_pvid_lookup cfg devs⟩

theorem c5_witness :
    ∃ bd ∈ find_existing_bridges (add_bridge_connection [] [devEth] cfgW
        "5afe0000-0000-4000-8000-000000000001" "5afe0000-0000-4000-8000-000000000002"
        false false).2.1,
      bd.uuid = "5afe0000-0000-4000-8000-000000000001" ∧ bd.vlanDefaultPvid = none :=
  (c5_pvid_key_mismatch [] [devEth] cfgW "5afe0000-0000-4000-8000-000000000001"
    "5afe0000-0000-4000-8000-000000000002" 42 rfl (by decide) rfl (by simp)
    (by decide)).2

/-! ## C8: MAC clone round-trip -/

/-- C8: a bridge created with clone-MAC enabled on a slave whose hardware
address resolves reads back through `find_existing_bridges` with a
MAC-address setting rendered exactly as the slave's hardware-address string
at creation time; if the address cannot be resolved, creation still succeeds
and the bridge has no MAC-address setting (rendered `Not set`). -/
theorem c8_mac_clone_roundtrip (st : List ConnProfile) (devs : List Device)
    (cfg : BridgeConfig) (bu su : String) (bytes : List Nat)
    (hd : cfg.dry_run = false) (hor : hasOutOfRange cfg = false)
    (hfb : ∀ p ∈ st, p.connection.uuid ≠ bu) (hbu : bu ≠ "") :
    (cfg.clone_mac = true →
      _get_mac_address devs cfg.slave_interface = some (renderMac bytes) →
      (∀ b ∈ bytes, b < 256) → bytes ≠ [] →
      ∃ bd ∈ find_existing_bridges
          (add_bridge_connection st devs cfg bu su false false).2.1,
        bd.uuid = bu ∧ bd.macAddress = renderMac bytes) ∧
    (_get_mac_address devs cfg.slave_interface = none →
      (add_bridge_connection st devs cfg bu su false false).1 = AddResult.success ∧
      ∃ bd ∈ find_existing_bridges
          (add_bridge_connection st devs cfg bu su false false).2.1,
        bd.uuid = bu ∧ bd.macAddress = "Not set") := by
  obtain ⟨h₁, h₂⟩ := add_run_success st devs cfg bu su hd hor
  have hsub : ((delete_connection (delete_connection st cfg.conn_name false false).1
      (slaveConnName cfg) false false).1).Sublist st :=
    (delete_state_sublist _ _ false false).trans (delete_state_sublist st _ false false)
  obtain ⟨sl, hmem⟩ := feb_new_bridge
    (delete_connection (delete_connection st cfg.conn_name false false).1
      (slaveConnName cfg) false false).1
    (bridgeProfileOf cfg (bsecOf cfg devs) bu) (slaveProfileOf cfg su bu) rfl
    (beq_eq_false_iff_ne.mpr hbu) (fun p hp => hfb p (hsub.subset hp)) rfl
  constructor
  · intro hcm hdev hlt hne
    have hmp : macPartOf cfg devs = [("mac-address", SettingVal.bytes bytes)] := by
      unfold macPartOf
      rw [if_pos hcm, hdev]
      show (match parseMacStr (renderMac bytes) with
        | some bs => [("mac-address", SettingVal.bytes bs)]
        | none => []) = [("mac-address", SettingVal.bytes bytes)]
      rw [parseMacStr_renderMac bytes hne hlt]
    have hlook : lookupA "mac-address" (bsecOf cfg devs) =
        some (SettingVal.bytes bytes) := by
      unfold bsecOf
      rw [hmp]
      simp [lookupA]
    have hmk : (mkBridgeDetails (bridgeProfileOf cfg (bsecOf cfg devs) bu)).macAddress
        = renderMac bytes := by
      simp only [mkBridgeDetails, bridgeProfileOf]
      rw [hlook]
      cases bytes with
      | nil => exact absurd rfl hne
      | cons a t => rfl
    rw [h₂]
    exact ⟨_, hmem, rfl, hmk⟩
  · intro hnone
    have hmp : macPartOf cfg devs = [] := by
      unfold macPartOf
      by_cases hcm : cfg.clone_mac
      · rw [if_pos hcm, hnone]
      · rw [if_neg hcm]
    have hlook : lookupA "mac-address" (bsecOf cfg devs) = none := by
      unfold bsecOf
      rw [hmp]
      refine lookupA_append_none₂ _ _ _ ?_
        (lookupA_eq_none_of_keys _ _ _ (pvidPartOf_keys cfg) (by decide))
      refine lookupA_append_none₂ _ _ _ ?_
        (lookupA_eq_none_of_keys _ _ _ (vfPartOf_keys cfg) (by decide))
      refine lookupA_append_none₂ _ _ _ ?_
        (lookupA_eq_none_of_keys _ _ _ (fdPartOf_keys cfg) (by decide))
      refine lookupA_append_none₂ _ _ _ ?_
        (lookupA_eq_none_of_keys _ _ _ (msPartOf_keys cfg) (by decide))
      refine lookupA_append_none₂ _ _ _ ?_
        (lookupA_eq_none_of_keys _ _ _ (prioPartOf_keys cfg) (by decide))
      exact lookupA_append_none₂ _ _ _ rfl
        (lookupA_eq_none_of_keys _ _ _ (stpPartOf_keys cfg) (by decide))
    have hmk : (mkBridgeDetails (bridgeProfileOf cfg (bsecOf cfg devs) bu)).macAddress
        = "Not set" := by
      simp only [mkBridgeDetails, bridgeProfileOf]
      rw [hlook]
    rw [h₂]
    exact ⟨h₁, _, hmem, rfl, hmk⟩

theorem c8_witness :
    ∃ bd ∈ find_existing_bridges (add_bridge_connection [] [devEth] cfgW
        "5afe0000-0000-4000-8000-000000000003" "5afe0000-0000-4000-8000-000000000004"
        false false).2.1,
      bd.uuid = "5afe0000-0000-4000-8000-000000000003" ∧
      bd.macAddress = renderMac [0, 17, 34, 51, 68, 85] :=
  (c8_mac_clone_roundtrip [] [devEth] cfgW "5afe0000-0000-4000-8000-000000000003"
    "5afe0000-0000-4000-8000-000000000004" [0, 17, 34, 51, 68, 85] rfl (by decide)
    (by simp) (by decide)).1 rfl rfl (by decide) (by decide)

/-! ## C6: deactivation matches only the profile name, not the UUID -/

/-- C6 (code bug): `deactivate_connection` compares only the bound profile's
`id` with its argument, so an argument that is the profile's UUID — although
it identifies the profile for `find_connection`, and the CLI documents
`deactivate <name|uuid>` — matches no active connection: the code takes the
"not active" path and issues no `DeactivateConnection` call, while the same
call with the profile's name deactivates it. -/
theorem c6_deactivate_uuid_ignored :
    connMatches "3c0b6a70-1111-2222-3333-444455556666" acBridgeProfile = true ∧
    find_connection [acBridgeProfile] "3c0b6a70-1111-2222-3333-444455556666" =
      some acBridgeProfile ∧
    deactivate_connection [acEntry] [acBridgeProfile]
      "3c0b6a70-1111-2222-3333-444455556666" false = [SCall.listConnectionsRead] ∧
    deactivate_connection [acEntry] [acBridgeProfile] "br0" false =
      [SCall.deactivateCall "/org/freedesktop/NetworkManager/ActiveConnection/7"] := by
  decide
